import Mathlib

/-!
Shallow embedding of src/joystick_xl_min/joystick.py (class Joystick) and of
the constants of src/joystick_xl_min/inputs.py (class Axis), used to check
the natural-language specification of the input-state-to-report engine.

Python integers are modelled as Int (or Nat where the source value is a
count or a byte), Python lists as List, and a raised exception as an error
value carried in the result of the operation that raises it.
-/

deriving instance DecidableEq for Except

namespace Axis

/-- Axis.MIN (inputs.py): lowest possible axis value for USB HID reports. -/
def MIN : Int := 0

/-- Axis.MAX (inputs.py): highest possible axis value for USB HID reports. -/
def MAX : Int := 255

/-- Axis.IDLE (inputs.py): idle/center axis value for USB HID reports. -/
def IDLE : Int := 128

end Axis

/-- The ValueError variants raised by the two validation helpers (the spec's
RangeError taxonomy): one constructor per raise site in
Joystick._validate_axis_value and Joystick._validate_button_number. -/
inductive RangeError
  | NoAxes
  | AxisIndex
  | AxisValue
  | NoButtons
  | ButtonIndex
  deriving DecidableEq, Repr

/-- Any exception escaping an engine method: a validation ValueError, a list
IndexError, or struct.error from struct.pack_into. -/
inductive JErr
  | range (e : RangeError)
  | indexError
  | structError
  deriving DecidableEq, Repr

/-- Resolve a Python list index against a list of length n (a negative index
counts from the end); none models IndexError. -/
def pyIndex (n : ℕ) (i : ℤ) : Option ℕ :=
  if 0 ≤ i ∧ i < (n : ℤ) then some i.toNat
  else if -(n : ℤ) ≤ i ∧ i < 0 then some (i + n).toNat
  else none

/-- Python list element assignment l[i] = v. -/
def pySet {α : Type} (l : List α) (i : ℤ) (v : α) : Option (List α) :=
  (pyIndex l.length i).map (fun k => l.set k v)

/-- Python list element read l[i]. -/
def pyGet (l : List ℤ) (i : ℤ) : Option ℤ :=
  (pyIndex l.length i).map (fun k => l.getD k 0)

/-- Python in-place read-modify-write l[i], as used by |= and &= on a list
element. -/
def pyModify {α : Type} [Inhabited α] (l : List α) (i : ℤ) (f : α → α) : Option (List α) :=
  (pyIndex l.length i).map (fun k => l.set k (f (l.getD k default)))

/-- Joystick._validate_axis_value (joystick.py lines 105-126), with the
ValueError it raises as the result; none means the check passed (the Python
function then returns True).  It reads only the class attribute _num_axes
and mutates nothing. -/
def validate_axis_value (num_axes : ℕ) (axis value : ℤ) : Option RangeError :=
  if num_axes = 0 then some .NoAxes
  else if axis + 1 > (num_axes : ℤ) then some .AxisIndex
  else if ¬(Axis.MIN ≤ value ∧ value ≤ Axis.MAX) then some .AxisValue
  else none

/-- Joystick._validate_button_number (joystick.py lines 128-144); pure, same
conventions as validate_axis_value. -/
def validate_button_number (num_buttons : ℕ) (button : ℤ) : Option RangeError :=
  if num_buttons = 0 then some .NoButtons
  else if ¬(0 ≤ button ∧ button ≤ (num_buttons : ℤ) - 1) then some .ButtonIndex
  else none

/-- Number of button-state bytes allocated at construction:
(num_buttons // 8) + bool(num_buttons % 8) (joystick.py line 95). -/
def nButtonBytes (num_buttons : ℕ) : ℕ :=
  num_buttons / 8 + (if num_buttons % 8 = 0 then 0 else 1)

/-- The state of one Joystick object: the counts loaded from boot_out.txt
into the class attributes, the live input-state lists, and the two report
buffers (_report and _last_report). -/
structure Joystick where
  num_axes : ℕ
  num_buttons : ℕ
  report_size : ℕ
  axis_states : List ℤ
  button_states : List ℕ
  report : List ℕ
  last_report : List ℕ
  deriving DecidableEq, Repr

/-- Observable outcome of one engine call: the state of the object when the
call returns (or when its exception propagates), the exception if any, and
the reports passed to send_report during the call, in order. -/
structure CallResult where
  st : Joystick
  err : Option JErr
  sent : List (List ℕ)
  deriving DecidableEq, Repr

/-- The argument list handed to struct.pack_into: axis states followed by
button-state bytes (joystick.py lines 156-160). -/
def Joystick.reportData (j : Joystick) : List ℤ :=
  j.axis_states ++ j.button_states.map Int.ofNat

/-- Conditions under which struct.pack_into(self._format, self._report, 0,
*report_data) succeeds: the argument count matches the format string built
at construction (num_axes + nButtonBytes unsigned-byte fields), the buffer
holds the packed size, and every value fits an unsigned byte.  Every state
reachable through the embedded operations satisfies the first two. -/
def Joystick.serializeOk (j : Joystick) : Bool :=
  decide (j.reportData.length = j.num_axes + nButtonBytes j.num_buttons) &&
  decide (j.num_axes + nButtonBytes j.num_buttons ≤ j.report.length) &&
  j.reportData.all (fun v => decide (0 ≤ v) && decide (v ≤ 255))

/-- The contents of self._report after a successful struct.pack_into at
offset 0: the packed bytes overwrite the start of the buffer and the rest of
the buffer is unchanged. -/
def Joystick.serialized (j : Joystick) : List ℕ :=
  j.reportData.map Int.toNat ++ j.report.drop j.reportData.length

/-- Joystick.update (joystick.py lines 146-167): serialize the input state
into _report, then send the report iff always is set or _last_report differs
from _report, copying _report into _last_report on send.  A struct.error
propagates with the object unchanged (pack_into validates before writing). -/
def Joystick.update (j : Joystick) (always : Bool) : CallResult :=
  if j.serializeOk then
    if always = true ∨ j.last_report ≠ j.serialized then
      ⟨{ j with report := j.serialized, last_report := j.serialized }, none, [j.serialized]⟩
    else
      ⟨{ j with report := j.serialized }, none, []⟩
  else
    ⟨j, some .structError, []⟩

/-- Joystick.reset_all (joystick.py lines 169-175): the first loop writes
Axis.IDLE into axis indices 0..num_axes-1 (an IndexError escapes only when
the list is shorter than num_axes, which no reachable state exhibits), the
second zeroes every button byte, then update(always=True). -/
def Joystick.reset_all (j : Joystick) : CallResult :=
  if j.num_axes ≤ j.axis_states.length then
    Joystick.update
      { j with
        axis_states := List.replicate j.num_axes Axis.IDLE ++ j.axis_states.drop j.num_axes,
        button_states := List.replicate j.button_states.length 0 }
      true
  else
    ⟨{ j with axis_states := List.replicate j.axis_states.length Axis.IDLE },
      some .indexError, []⟩

/-- The physical slot written for logical axis index a (joystick.py lines
213-214): when more than 7 axes are configured and the index exceeds 5, the
sequence is reversed for sliders. -/
def axisSlot (num_axes : ℕ) (a : ℤ) : ℤ :=
  if 7 < num_axes ∧ 5 < a then (num_axes : ℤ) - a + 5 else a

/-- The for-loop of Joystick.update_axis (joystick.py lines 211-215),
returning the object state when the loop ends normally or its exception
escapes.  skip_validation short-circuits the validation call. -/
def updateAxisLoop (skipVal : Bool) : Joystick → List (ℤ × ℤ) → Joystick × Option JErr
  | j, [] => (j, none)
  | j, (a, value) :: rest =>
    match (if skipVal then none else validate_axis_value j.num_axes a value) with
    | some e => (j, some (.range e))
    | none =>
      match pySet j.axis_states (axisSlot j.num_axes a) value with
      | none => (j, some .indexError)
      | some l => updateAxisLoop skipVal { j with axis_states := l } rest

/-- Joystick.update_axis (joystick.py lines 177-218): run the loop, then
unless defer is set (or an exception escaped the loop) perform update(). -/
def Joystick.update_axis (j : Joystick) (axis : List (ℤ × ℤ))
    (defer skip_validation : Bool) : CallResult :=
  match updateAxisLoop skip_validation j axis with
  | (j', some e) => ⟨j', some e, []⟩
  | (j', none) => if defer then ⟨j', none, []⟩ else j'.update false

/-- One |= / &= on a button-state byte (joystick.py lines 258-261): press is
x |= 1 << bit; release is x &= ~(1 << bit), which on Python's
arbitrary-precision non-negative ints is exactly Nat.ldiff x (2 ^ bit)
(clear bit, leave every other bit). -/
def buttonByteOp (value : Bool) (bit : ℕ) (x : ℕ) : ℕ :=
  if value then x ||| 2 ^ bit else Nat.ldiff x (2 ^ bit)

/-- The for-loop of Joystick.update_button (joystick.py lines 254-261).
Python's floor division and modulo by the positive constant 8 coincide with
Int division and modulo here, which are Euclidean (b / 8 is Int.ediv b 8 and
b % 8 is Int.emod b 8). -/
def updateButtonLoop (skipVal : Bool) : Joystick → List (ℤ × Bool) → Joystick × Option JErr
  | j, [] => (j, none)
  | j, (b, value) :: rest =>
    match (if skipVal then none else validate_button_number j.num_buttons b) with
    | some e => (j, some (.range e))
    | none =>
      match pyModify j.button_states (b / 8) (buttonByteOp value (b % 8).toNat) with
      | none => (j, some .indexError)
      | some l => updateButtonLoop skipVal { j with button_states := l } rest

/-- Joystick.update_button (joystick.py lines 220-263): run the loop, then
unless defer is set (or an exception escaped the loop) perform update(). -/
def Joystick.update_button (j : Joystick) (button : List (ℤ × Bool))
    (defer skip_validation : Bool) : CallResult :=
  match updateButtonLoop skip_validation j button with
  | (j', some e) => ⟨j', some e, []⟩
  | (j', none) => if defer then ⟨j', none, []⟩ else j'.update false

/-- Python str.split() with no argument: split on runs of whitespace,
dropping empty tokens.  cur accumulates the current token in reverse. -/
def splitWsAux : List Char → List Char → List (List Char)
  | [], cur => if cur.isEmpty then [] else [cur.reverse]
  | c :: rest, cur =>
    if c.isWhitespace then
      if cur.isEmpty then splitWsAux rest []
      else cur.reverse :: splitWsAux rest []
    else splitWsAux rest (c :: cur)

/-- Python str.split() with no argument, on the characters of a line. -/
def splitWs (l : List Char) : List (List Char) := splitWsAux l []

/-- Python str.isdigit() on ASCII text: non-empty and every character a
decimal digit. -/
def pyIsdigit (s : List Char) : Bool := !s.isEmpty && s.all Char.isDigit

/-- Python int(s) on a string of decimal digits. -/
def parseDecimal (s : List Char) : ℕ :=
  s.foldl (fun n c => 10 * n + (c.toNat - 48)) 0

/-- Whether the first list is a prefix of the second, by decidable equality
of elements. -/
def prefixOf {α : Type} [DecidableEq α] : List α → List α → Bool
  | [], _ => true
  | _ :: _, [] => false
  | a :: as, b :: bs => if a = b then prefixOf as bs else false

/-- Whether needle occurs contiguously inside hay (Python: needle in hay,
on strings). -/
def containsSeq {α : Type} [DecidableEq α] (needle : List α) : List α → Bool
  | [] => prefixOf needle []
  | b :: bs => prefixOf needle (b :: bs) || containsSeq needle bs

/-- The marker token scanned for in boot_out.txt (joystick.py line 71). -/
def marker : List Char := "JoystickXL".toList

/-- [int(s) for s in line.split() if s.isdigit()] (joystick.py line 72):
the whitespace-separated tokens of the line that consist entirely of digits,
parsed as integers, in order. -/
def lineConfig (line : List Char) : List ℕ :=
  (splitWs line).filterMap (fun s => if pyIsdigit s then some (parseDecimal s) else none)

/-- The configuration-loading block of Joystick.__init__ (joystick.py lines
67-82): the first line containing the marker is parsed and the loop breaks;
fewer than 4 extracted integers, no marker line at all (the class attribute
_report_size then stays 0), or a parsed report size of 0 raise ValueError,
caught and re-raised as the configuration Exception (here: none).  Returns
(num_axes, num_buttons, report_size); the third extracted integer is read
into neither. -/
def loadConfig (lines : List (List Char)) : Option (ℕ × ℕ × ℕ) :=
  match lines.find? (fun l => containsSeq marker l) with
  | none => none
  | some line =>
    let config := lineConfig line
    if config.length < 4 then none
    else if config.getD 3 0 = 0 then none
    else some (config.getD 0 0, config.getD 1 0, config.getD 3 0)

/-- The object state built by Joystick.__init__ (joystick.py lines 84-97)
from a loaded configuration: all axes idle, all button bytes 0, and both
report buffers zero-filled bytearrays of length report_size. -/
def mkJoystick (num_axes num_buttons report_size : ℕ) : Joystick where
  num_axes := num_axes
  num_buttons := num_buttons
  report_size := report_size
  axis_states := List.replicate num_axes Axis.IDLE
  button_states := List.replicate (nButtonBytes num_buttons) 0
  report := List.replicate report_size 0
  last_report := List.replicate report_size 0

/-- The exceptions that can escape Joystick.__init__: the configuration
Exception (line 82), the ValueError of _get_device (line 28), the NameError
of the OSError handler (line 102), and a struct.error from the initial
update. -/
inductive InitError
  | configError
  | deviceNotFound
  | nameError
  | structError
  deriving DecidableEq, Repr

/-- Joystick.__init__ (joystick.py lines 53-103).  devicePresent models
whether _get_device finds a matching HID device; firstSendFails models
send_report raising OSError during the construction-time reset_all.  In the
latter case the except branch executes time.sleep(1), but the module imports
only struct and usb_hid (line 8), so the reference to time raises NameError
and the retry on line 103 is never reached. -/
def initFromConfig (na nb rs : ℕ) (devicePresent firstSendFails : Bool) :
    Except InitError Joystick :=
  if devicePresent then
    match (mkJoystick na nb rs).reset_all with
    | ⟨_, some _, _⟩ => .error .structError
    | ⟨j', none, _⟩ => if firstSendFails then .error .nameError else .ok j'
  else .error .deviceNotFound

/-- Joystick.__init__, continued: dispatch on the loaded configuration. -/
def initJoystick (lines : List (List Char)) (devicePresent firstSendFails : Bool) :
    Except InitError Joystick :=
  match loadConfig lines with
  | none => .error .configError
  | some cfg => initFromConfig cfg.1 cfg.2.1 cfg.2.2 devicePresent firstSendFails

/-- Modelled from the spec: the Configuration Loader "extracts all maximal
digit runs in that line as integers, in order of appearance".  Auxiliary:
cur accumulates the current digit run in reverse. -/
def specDigitRunsAux : List Char → List Char → List ℕ
  | [], cur => if cur.isEmpty then [] else [parseDecimal cur.reverse]
  | c :: rest, cur =>
    if c.isDigit then specDigitRunsAux rest (c :: cur)
    else if cur.isEmpty then specDigitRunsAux rest []
    else parseDecimal cur.reverse :: specDigitRunsAux rest []

/-- Modelled from the spec: all maximal digit runs of a line, as integers,
in order of appearance.  The source (joystick.py line 72) instead keeps only
whitespace-separated tokens that consist entirely of digits. -/
def specDigitRuns (l : List Char) : List ℕ := specDigitRunsAux l []

/-- The idle report for a configuration: one byte of Axis.IDLE (128) per
axis, then a 0 byte for every button byte and for the zero padding of the
report buffer. -/
def idleReport (j : Joystick) : List ℕ :=
  List.replicate j.num_axes 128 ++ List.replicate (j.report_size - j.num_axes) 0

/-! Helper lemmas about the embedded operations. -/

lemma pyIndex_some_lt {n : ℕ} {i : ℤ} {k : ℕ} (h : pyIndex n i = some k) : k < n := by
  unfold pyIndex at h
  split at h
  · rename_i h1
    simp only [Option.some.injEq] at h
    omega
  · split at h
    · rename_i h1 h2
      simp only [Option.some.injEq] at h
      omega
    · simp at h

lemma pyIndex_of_nonneg {n : ℕ} {i : ℤ} (h0 : 0 ≤ i) (h1 : i < (n : ℤ)) :
    pyIndex n i = some i.toNat := by
  unfold pyIndex
  rw [if_pos ⟨h0, h1⟩]

lemma list_set_getD {α : Type} (l : List α) (k : ℕ) (d : α) (h : k < l.length) :
    l.set k (l.getD k d) = l := by
  induction l generalizing k with
  | nil => simp at h
  | cons x xs ih =>
    cases k with
    | zero => simp
    | succ m =>
      simp only [List.getD_cons_succ, List.set]
      rw [ih m (by simpa using h)]

lemma pySet_eq_some {α : Type} {l : List α} {i : ℤ} {v : α} {l' : List α}
    (h : pySet l i v = some l') :
    ∃ k, pyIndex l.length i = some k ∧ l' = l.set k v ∧ k < l.length := by
  unfold pySet at h
  cases hk : pyIndex l.length i with
  | none => rw [hk] at h; simp at h
  | some k =>
    rw [hk] at h
    simp only [Option.map_some', Option.some.injEq] at h
    exact ⟨k, rfl, h.symm, pyIndex_some_lt hk⟩

lemma update_fields (j : Joystick) (always : Bool) :
    (j.update always).st.num_axes = j.num_axes ∧
    (j.update always).st.num_buttons = j.num_buttons ∧
    (j.update always).st.report_size = j.report_size ∧
    (j.update always).st.axis_states = j.axis_states ∧
    (j.update always).st.button_states = j.button_states := by
  unfold Joystick.update
  split
  · split <;> simp
  · simp

lemma axisSlot_bounds {n : ℕ} {a : ℤ} (h0 : 0 ≤ a) (h1 : a < (n : ℤ)) :
    0 ≤ axisSlot n a ∧ axisSlot n a < (n : ℤ) := by
  unfold axisSlot
  split <;> omega

lemma validate_axis_none_iff {n : ℕ} {a v : ℤ} :
    validate_axis_value n a v = none ↔ n ≠ 0 ∧ a < (n : ℤ) ∧ 0 ≤ v ∧ v ≤ 255 := by
  unfold validate_axis_value Axis.MIN Axis.MAX
  split_ifs with h1 h2 h3 <;> simp <;> omega

lemma validate_button_none_iff {n : ℕ} {b : ℤ} :
    validate_button_number n b = none ↔ n ≠ 0 ∧ 0 ≤ b ∧ b ≤ (n : ℤ) - 1 := by
  unfold validate_button_number
  split_ifs with h1 h2 <;> simp <;> omega

lemma buttonBank_bounds {nb : ℕ} {b : ℤ} (h0 : 0 ≤ b) (h1 : b ≤ (nb : ℤ) - 1) :
    0 ≤ b / 8 ∧ b / 8 < (nButtonBytes nb : ℤ) := by
  unfold nButtonBytes
  split <;> omega

lemma updateAxisLoop_fields (skipVal : Bool) (pairs : List (ℤ × ℤ)) (j : Joystick) :
    (updateAxisLoop skipVal j pairs).1.num_axes = j.num_axes ∧
    (updateAxisLoop skipVal j pairs).1.num_buttons = j.num_buttons ∧
    (updateAxisLoop skipVal j pairs).1.report_size = j.report_size ∧
    (updateAxisLoop skipVal j pairs).1.button_states = j.button_states ∧
    (updateAxisLoop skipVal j pairs).1.report = j.report ∧
    (updateAxisLoop skipVal j pairs).1.last_report = j.last_report ∧
    (updateAxisLoop skipVal j pairs).1.axis_states.length = j.axis_states.length := by
  induction pairs generalizing j with
  | nil => simp [updateAxisLoop]
  | cons p rest ih =>
    obtain ⟨a, v⟩ := p
    simp only [updateAxisLoop]
    cases h1 : (if skipVal then none else validate_axis_value j.num_axes a v) with
    | some e => simp
    | none =>
      simp only []
      cases h2 : pySet j.axis_states (axisSlot j.num_axes a) v with
      | none => simp
      | some l =>
        obtain ⟨k, hk, hl, hklt⟩ := pySet_eq_some h2
        have := ih { j with axis_states := l }
        simp only [this]
        subst hl
        simp

lemma updateButtonLoop_fields (skipVal : Bool) (pairs : List (ℤ × Bool)) (j : Joystick) :
    (updateButtonLoop skipVal j pairs).1.num_axes = j.num_axes ∧
    (updateButtonLoop skipVal j pairs).1.num_buttons = j.num_buttons ∧
    (updateButtonLoop skipVal j pairs).1.report_size = j.report_size ∧
    (updateButtonLoop skipVal j pairs).1.axis_states = j.axis_states ∧
    (updateButtonLoop skipVal j pairs).1.report = j.report ∧
    (updateButtonLoop skipVal j pairs).1.last_report = j.last_report ∧
    (updateButtonLoop skipVal j pairs).1.button_states.length = j.button_states.length := by
  induction pairs generalizing j with
  | nil => simp [updateButtonLoop]
  | cons p rest ih =>
    obtain ⟨b, v⟩ := p
    simp only [updateButtonLoop]
    cases h1 : (if skipVal then none else validate_button_number j.num_buttons b) with
    | some e => simp
    | none =>
      simp only []
      cases h2 : pyModify j.button_states (b / 8) (buttonByteOp v (b % 8).toNat) with
      | none => simp
      | some l =>
        have hlen : l.length = j.button_states.length := by
          unfold pyModify at h2
          cases hk : pyIndex j.button_states.length (b / 8) with
          | none => rw [hk] at h2; simp at h2
          | some k =>
            rw [hk] at h2
            simp only [Option.map_some', Option.some.injEq] at h2
            rw [← h2, List.length_set]
        have := ih { j with button_states := l }
        simp only [this]
        simp [hlen]

lemma updateButtonLoop_ok_append (pre rest : List (ℤ × Bool)) (j : Joystick)
    (hlen : j.button_states.length = nButtonBytes j.num_buttons)
    (hpre : ∀ p ∈ pre, validate_button_number j.num_buttons p.1 = none) :
    (updateButtonLoop false j pre).2 = none ∧
    updateButtonLoop false j (pre ++ rest) =
      updateButtonLoop false (updateButtonLoop false j pre).1 rest := by
  induction pre generalizing j with
  | nil => simp [updateButtonLoop]
  | cons p ps ih =>
    obtain ⟨b, v⟩ := p
    have hv : validate_button_number j.num_buttons b = none := hpre (b, v) (by simp)
    obtain ⟨hnb, hb0, hb1⟩ := validate_button_none_iff.mp hv
    have hbank := buttonBank_bounds hb0 hb1
    have hidx : pyIndex j.button_states.length (b / 8) = some (b / 8).toNat := by
      rw [hlen]
      exact pyIndex_of_nonneg hbank.1 (by exact_mod_cast hbank.2)
    have hmod : pyModify j.button_states (b / 8) (buttonByteOp v (b % 8).toNat) =
        some (j.button_states.set (b / 8).toNat
          (buttonByteOp v (b % 8).toNat (j.button_states.getD (b / 8).toNat 0))) := by
      unfold pyModify
      rw [hidx]
      rfl
    simp only [List.cons_append, updateButtonLoop, hv, hmod, Bool.false_eq_true, if_false]
    apply ih
    · simp [List.length_set, hlen]
    · intro q hq
      exact hpre q (by simp [hq])

lemma updateAxisLoop_ok_append (pre rest : List (ℤ × ℤ)) (j : Joystick)
    (hlen : j.axis_states.length = j.num_axes)
    (hpre : ∀ p ∈ pre, 0 ≤ p.1 ∧ validate_axis_value j.num_axes p.1 p.2 = none) :
    (updateAxisLoop false j pre).2 = none ∧
    updateAxisLoop false j (pre ++ rest) =
      updateAxisLoop false (updateAxisLoop false j pre).1 rest := by
  induction pre generalizing j with
  | nil => simp [updateAxisLoop]
  | cons p ps ih =>
    obtain ⟨a, v⟩ := p
    obtain ⟨ha0, hv⟩ := hpre (a, v) (by simp)
    obtain ⟨hna, halt, hv0, hv255⟩ := validate_axis_none_iff.mp hv
    have hslot := axisSlot_bounds ha0 halt
    have hidx : pyIndex j.axis_states.length (axisSlot j.num_axes a) =
        some (axisSlot j.num_axes a).toNat := by
      rw [hlen]
      exact pyIndex_of_nonneg hslot.1 hslot.2
    have hset : pySet j.axis_states (axisSlot j.num_axes a) v =
        some (j.axis_states.set (axisSlot j.num_axes a).toNat v) := by
      unfold pySet
      rw [hidx]
      rfl
    simp only [List.cons_append, updateAxisLoop, hv, hset, Bool.false_eq_true, if_false]
    apply ih
    · simp [List.length_set, hlen]
    · intro q hq
      exact hpre q (by simp [hq])

/-- C8: validate_axis(index, value) fails with RangeError::NoAxes when
axis_count is 0, with RangeError::AxisIndex when index is at least
axis_count, and with RangeError::AxisValue when value is outside [0, 255],
in that order of precedence, and succeeds exactly when none of these
conditions hold.  The helper is embedded as a pure function of the
configured axis count, so it mutates no state. -/
theorem C8_validate_axis_spec (num_axes : ℕ) (axis value : ℤ) :
    (validate_axis_value num_axes axis value = some .NoAxes ↔ num_axes = 0) ∧
    (validate_axis_value num_axes axis value = some .AxisIndex ↔
      num_axes ≠ 0 ∧ (num_axes : ℤ) ≤ axis) ∧
    (validate_axis_value num_axes axis value = some .AxisValue ↔
      num_axes ≠ 0 ∧ axis < (num_axes : ℤ) ∧ (value < 0 ∨ 255 < value)) ∧
    (validate_axis_value num_axes axis value = none ↔
      num_axes ≠ 0 ∧ axis < (num_axes : ℤ) ∧ 0 ≤ value ∧ value ≤ 255) := by
  unfold validate_axis_value Axis.MIN Axis.MAX
  split_ifs with h1 h2 h3 <;>
    refine ⟨?_, ?_, ?_, ?_⟩ <;> simp <;> omega

/-- C2: a validated update_axes pair with a non-negative logical index is
written at physical slot axis_count - index + 5 when axis_count > 7 and
index > 5, and at its own slot otherwise; indices 0..5 are never remapped.
The witness instantiates the spec's example: axis_count = 13, pair
(12, 200) lands in slot 13 - 12 + 5 = 6 and slot 12 keeps its idle value. -/
theorem C2_axis_remap (j : Joystick) (a v : ℤ) (defer : Bool)
    (hlen : j.axis_states.length = j.num_axes)
    (h0 : 0 ≤ a)
    (hv : validate_axis_value j.num_axes a v = none) :
    ((j.update_axis [(a, v)] defer false).st.axis_states =
      j.axis_states.set (axisSlot j.num_axes a).toNat v) ∧
    (7 < j.num_axes → 5 < a → axisSlot j.num_axes a = (j.num_axes : ℤ) - a + 5) ∧
    (a ≤ 5 → axisSlot j.num_axes a = a) := by
  obtain ⟨hna, halt, hv0, hv255⟩ := validate_axis_none_iff.mp hv
  have hslot := axisSlot_bounds h0 halt
  have hidx : pyIndex j.axis_states.length (axisSlot j.num_axes a) =
      some (axisSlot j.num_axes a).toNat := by
    rw [hlen]
    exact pyIndex_of_nonneg hslot.1 hslot.2
  have hset : pySet j.axis_states (axisSlot j.num_axes a) v =
      some (j.axis_states.set (axisSlot j.num_axes a).toNat v) := by
    unfold pySet
    rw [hidx]
    rfl
  refine ⟨?_, ?_, ?_⟩
  · unfold Joystick.update_axis
    simp only [updateAxisLoop, hv, hset, Bool.false_eq_true, if_false]
    split
    · simp
    · exact (update_fields _ false).2.2.2.1
  · intro h7 h5
    unfold axisSlot
    rw [if_pos ⟨h7, h5⟩]
  · intro h5
    unfold axisSlot
    rw [if_neg (by omega)]

/-- Witness for C2 at the spec's concrete example: with 13 axes configured,
update_axis [(12, 200)] writes 200 into slot 6 and leaves slot 12 idle. -/
theorem C2_axis_remap_witness :
    validate_axis_value 13 12 200 = none ∧
    ((mkJoystick 13 13 20).update_axis [(12, 200)] false false).st.axis_states.getD 6 0 = 200 ∧
    ((mkJoystick 13 13 20).update_axis [(12, 200)] false false).st.axis_states.getD 12 0 =
      128 := by
  have h := C2_axis_remap (mkJoystick 13 13 20) 12 200 false (by decide) (by decide) (by decide)
  refine ⟨by decide, ?_, ?_⟩
  · rw [h.1]
    decide
  · rw [h.1]
    decide

lemma buttonByteOp_testBit_self (v : Bool) (bit x : ℕ) :
    (buttonByteOp v bit x).testBit bit = v := by
  unfold buttonByteOp
  cases v with
  | true => simp [Nat.testBit_lor, Nat.testBit_two_pow_self]
  | false => simp [Nat.testBit_ldiff, Nat.testBit_two_pow_self]

lemma list_getD_set_self {α : Type} (l : List α) (k : ℕ) (v d : α) (h : k < l.length) :
    (l.set k v).getD k d = v := by
  rw [List.getD_eq_getElem?_getD, List.getElem?_set_self h]
  rfl

lemma list_getD_set_ne {α : Type} (l : List α) (k m : ℕ) (v d : α) (h : k ≠ m) :
    (l.set k v).getD m d = l.getD m d := by
  rw [List.getD_eq_getElem?_getD, List.getElem?_set_ne h, ← List.getD_eq_getElem?_getD]

/-- C7: a validated single-button update rewrites exactly byte index / 8 of
button_states, applying |= (1 << index % 8) on press and &= ~(1 << index % 8)
on release, so bit index % 8 of that byte becomes the pressed flag and every
other byte is unchanged.  The witness instantiates the spec's example:
button_count = 13 >= 9, update_button [(8, true)] sets bit 0 of byte 1 and
leaves byte 0 unchanged. -/
theorem C7_button_packing (j : Joystick) (b : ℤ) (v : Bool) (defer : Bool)
    (hlen : j.button_states.length = nButtonBytes j.num_buttons)
    (hv : validate_button_number j.num_buttons b = none) :
    ((j.update_button [(b, v)] defer false).st.button_states =
      j.button_states.set (b / 8).toNat
        (buttonByteOp v (b % 8).toNat (j.button_states.getD (b / 8).toNat 0))) ∧
    (((j.update_button [(b, v)] defer false).st.button_states.getD (b / 8).toNat 0).testBit
        (b % 8).toNat = v) ∧
    (∀ k, k ≠ (b / 8).toNat →
      (j.update_button [(b, v)] defer false).st.button_states.getD k 0 =
        j.button_states.getD k 0) := by
  obtain ⟨hnb, hb0, hb1⟩ := validate_button_none_iff.mp hv
  have hbank := buttonBank_bounds hb0 hb1
  have hidx : pyIndex j.button_states.length (b / 8) = some (b / 8).toNat := by
    rw [hlen]
    exact pyIndex_of_nonneg hbank.1 (by exact_mod_cast hbank.2)
  have hmod : pyModify j.button_states (b / 8) (buttonByteOp v (b % 8).toNat) =
      some (j.button_states.set (b / 8).toNat
        (buttonByteOp v (b % 8).toNat (j.button_states.getD (b / 8).toNat 0))) := by
    unfold pyModify
    rw [hidx]
    rfl
  have hbanklt : (b / 8).toNat < j.button_states.length := by
    rw [hlen]
    omega
  have hmain : (j.update_button [(b, v)] defer false).st.button_states =
      j.button_states.set (b / 8).toNat
        (buttonByteOp v (b % 8).toNat (j.button_states.getD (b / 8).toNat 0)) := by
    unfold Joystick.update_button
    simp only [updateButtonLoop, hv, hmod, Bool.false_eq_true, if_false]
    split
    · simp
    · exact (update_fields _ false).2.2.2.2
  refine ⟨hmain, ?_, ?_⟩
  · rw [hmain, list_getD_set_self _ _ _ _ hbanklt, buttonByteOp_testBit_self]
  · intro k hk
    rw [hmain, list_getD_set_ne _ _ _ _ _ (fun hh => hk hh.symm)]

/-- Witness for C7 at the spec's concrete example: 13 buttons configured,
update_button [(8, true)] sets bit 0 of byte 1 and leaves byte 0 unchanged. -/
theorem C7_button_packing_witness :
    validate_button_number 13 8 = none ∧
    (((mkJoystick 6 13 20).update_button [(8, true)] false false).st.button_states.getD 1
        0).testBit 0 = true ∧
    ((mkJoystick 6 13 20).update_button [(8, true)] false false).st.button_states.getD 0 0 =
      (mkJoystick 6 13 20).button_states.getD 0 0 := by
  have h := C7_button_packing (mkJoystick 6 13 20) 8 true false (by decide) (by decide)
  exact ⟨by decide, h.2.1, h.2.2 0 (by decide)⟩

/-- C1: a batch update_button or update_axis call with skip_validation false
whose first invalid pair is (bi, bv) (resp. (ai, av)) raises exactly that
pair's RangeError, leaves every earlier pair applied (the final state is the
state after running the loop over the valid prefix; nothing is rolled back),
applies no later pair, and sends nothing.  The witness instantiates the
spec's example: button_count = 10, update_button [(0, true), (999, true)]
raises RangeError::ButtonIndex with button 0 left set. -/
theorem C1_fail_fast (j : Joystick)
    (hBlen : j.button_states.length = nButtonBytes j.num_buttons)
    (hAlen : j.axis_states.length = j.num_axes)
    (preB postB : List (ℤ × Bool)) (bi : ℤ) (bv : Bool) (eB : RangeError)
    (hpreB : ∀ p ∈ preB, validate_button_number j.num_buttons p.1 = none)
    (hbadB : validate_button_number j.num_buttons bi = some eB)
    (preA postA : List (ℤ × ℤ)) (ai av : ℤ) (eA : RangeError)
    (hpreA : ∀ p ∈ preA, 0 ≤ p.1 ∧ validate_axis_value j.num_axes p.1 p.2 = none)
    (hbadA : validate_axis_value j.num_axes ai av = some eA)
    (deferB deferA : Bool) :
    ((j.update_button (preB ++ (bi, bv) :: postB) deferB false).err = some (.range eB) ∧
     (j.update_button (preB ++ (bi, bv) :: postB) deferB false).st =
       (updateButtonLoop false j preB).1 ∧
     (j.update_button (preB ++ (bi, bv) :: postB) deferB false).sent = []) ∧
    ((j.update_axis (preA ++ (ai, av) :: postA) deferA false).err = some (.range eA) ∧
     (j.update_axis (preA ++ (ai, av) :: postA) deferA false).st =
       (updateAxisLoop false j preA).1 ∧
     (j.update_axis (preA ++ (ai, av) :: postA) deferA false).sent = []) := by
  constructor
  · obtain ⟨hok, happ⟩ := updateButtonLoop_ok_append preB ((bi, bv) :: postB) j hBlen hpreB
    have hnb : (updateButtonLoop false j preB).1.num_buttons = j.num_buttons :=
      (updateButtonLoop_fields false preB j).2.1
    unfold Joystick.update_button
    rw [happ]
    simp only [updateButtonLoop, hnb, hbadB, Bool.false_eq_true, if_false]
    refine ⟨?_, ?_, ?_⟩ <;> trivial
  · obtain ⟨hok, happ⟩ := updateAxisLoop_ok_append preA ((ai, av) :: postA) j hAlen hpreA
    have hna : (updateAxisLoop false j preA).1.num_axes = j.num_axes :=
      (updateAxisLoop_fields false preA j).1
    unfold Joystick.update_axis
    rw [happ]
    simp only [updateAxisLoop, hna, hbadA, Bool.false_eq_true, if_false]
    refine ⟨?_, ?_, ?_⟩ <;> trivial

/-- Witness for C1 at the spec's concrete example: 10 buttons configured,
update_button [(0, true), (999, true)] raises RangeError::ButtonIndex,
leaves button 0 set (button_states = [1, 0]) and sends nothing; on the same
object update_axis [(0, 0)] raises RangeError::NoAxes (no axes). -/
theorem C1_fail_fast_witness :
    ((mkJoystick 0 10 2).update_button [(0, true), (999, true)] false false).err =
      some (.range .ButtonIndex) ∧
    ((mkJoystick 0 10 2).update_button [(0, true), (999, true)] false false).st.button_states =
      [1, 0] ∧
    ((mkJoystick 0 10 2).update_button [(0, true), (999, true)] false false).sent = [] ∧
    ((mkJoystick 0 10 2).update_axis [(0, 0)] false false).err = some (.range .NoAxes) := by
  have h := C1_fail_fast (mkJoystick 0 10 2) (by decide) (by decide)
    [(0, true)] [] 999 true .ButtonIndex
    (by intro p hp; simp at hp; subst hp; decide) (by decide)
    [] [] 0 0 .NoAxes (by intro p hp; simp at hp) (by decide) false false
  simp only [List.cons_append, List.nil_append] at h
  refine ⟨h.1.1, ?_, h.1.2.2, ?_⟩
  · rw [h.1.2.1]
    decide
  · have h2 := h.2.1
    simpa using h2

/-- C9: an update_axis or update_button call with skip_validation false and
defer false in which some pair fails validation performs no report cycle:
nothing is sent, and neither _report nor _last_report changes (the partially
applied input state is left unserialized until a later successful call). -/
theorem C9_no_cycle_on_failure (j : Joystick) (pairsA : List (ℤ × ℤ))
    (pairsB : List (ℤ × Bool)) (eA eB : RangeError)
    (hA : (j.update_axis pairsA false false).err = some (.range eA))
    (hB : (j.update_button pairsB false false).err = some (.range eB)) :
    ((j.update_axis pairsA false false).sent = [] ∧
     (j.update_axis pairsA false false).st.report = j.report ∧
     (j.update_axis pairsA false false).st.last_report = j.last_report) ∧
    ((j.update_button pairsB false false).sent = [] ∧
     (j.update_button pairsB false false).st.report = j.report ∧
     (j.update_button pairsB false false).st.last_report = j.last_report) := by
  constructor
  · have hfields := updateAxisLoop_fields false pairsA j
    unfold Joystick.update_axis at hA ⊢
    rcases hloop : updateAxisLoop false j pairsA with ⟨j', oe⟩
    rw [hloop] at hA hfields
    cases oe with
    | some e => exact ⟨rfl, hfields.2.2.2.2.1, hfields.2.2.2.2.2.1⟩
    | none =>
      exfalso
      have hA' : (Joystick.update j' false).err = some (.range eA) := hA
      unfold Joystick.update at hA'
      split at hA'
      · split at hA' <;> simp at hA'
      · simp at hA'
  · have hfields := updateButtonLoop_fields false pairsB j
    unfold Joystick.update_button at hB ⊢
    rcases hloop : updateButtonLoop false j pairsB with ⟨j', oe⟩
    rw [hloop] at hB hfields
    cases oe with
    | some e => exact ⟨rfl, hfields.2.2.2.2.1, hfields.2.2.2.2.2.1⟩
    | none =>
      exfalso
      have hB' : (Joystick.update j' false).err = some (.range eB) := hB
      unfold Joystick.update at hB'
      split at hB'
      · split at hB' <;> simp at hB'
      · simp at hB'

/-- Witness for C9: with the repository's 6-axis 13-button configuration,
update_axis [(99, 0)] and update_button [(99, true)] both fail validation,
send nothing and leave both report buffers unchanged. -/
theorem C9_no_cycle_on_failure_witness :
    ((mkJoystick 6 13 20).update_axis [(99, 0)] false false).sent = [] ∧
    ((mkJoystick 6 13 20).update_button [(99, true)] false false).sent = [] ∧
    ((mkJoystick 6 13 20).update_axis [(99, 0)] false false).st.last_report =
      (mkJoystick 6 13 20).last_report := by
  have h := C9_no_cycle_on_failure (mkJoystick 6 13 20) [(99, 0)] [(99, true)]
    .AxisIndex .ButtonIndex (by decide) (by decide)
  exact ⟨h.1.1, h.2.1, h.1.2.2⟩

lemma update_cases (j : Joystick) (always : Bool) (hok : j.serializeOk = true) :
    ((always = true ∨ j.last_report ≠ j.serialized) →
      j.update always =
        ⟨{ j with report := j.serialized, last_report := j.serialized }, none, [j.serialized]⟩) ∧
    (¬(always = true ∨ j.last_report ≠ j.serialized) →
      j.update always = ⟨{ j with report := j.serialized }, none, []⟩) := by
  unfold Joystick.update
  rw [hok]
  constructor
  · intro h
    rw [if_pos rfl, if_pos h]
  · intro h
    rw [if_pos rfl, if_neg h]

/-- C3: a report cycle with a serializable state transmits iff it is forced
or the freshly serialized current report differs byte-for-byte from the last
sent report, and on transmission the current report is copied into the last
sent report; consequently an update_axis call with defer false that writes a
value equal to the already-transmitted current value of that axis sends
nothing. -/
theorem C3_report_cycle (j : Joystick) (always : Bool) (hok : j.serializeOk = true) :
    ((j.update always).sent ≠ [] ↔ (always = true ∨ j.serialized ≠ j.last_report)) ∧
    ((j.update always).sent ≠ [] →
      (j.update always).st.last_report = j.serialized ∧
      (j.update always).sent = [j.serialized]) ∧
    ((j.update always).sent = [] → (j.update always).st.last_report = j.last_report) ∧
    (∀ (a v : ℤ), validate_axis_value j.num_axes a v = none →
      pyGet j.axis_states (axisSlot j.num_axes a) = some v →
      j.last_report = j.serialized →
      (j.update_axis [(a, v)] false false).sent = []) := by
  have hmain : ((j.update always).sent ≠ [] ↔
        (always = true ∨ j.serialized ≠ j.last_report)) ∧
      ((j.update always).sent ≠ [] →
        (j.update always).st.last_report = j.serialized ∧
        (j.update always).sent = [j.serialized]) ∧
      ((j.update always).sent = [] → (j.update always).st.last_report = j.last_report) := by
    by_cases hc : always = true ∨ j.last_report ≠ j.serialized
    · rw [(update_cases j always hok).1 hc]
      refine ⟨?_, fun _ => ⟨rfl, rfl⟩, fun h => absurd h (by simp)⟩
      simp only [ne_eq, List.cons_ne_nil, not_false_iff, true_iff]
      rcases hc with h | h
      · exact Or.inl h
      · exact Or.inr (Ne.symm h)
    · rw [(update_cases j always hok).2 hc]
      push_neg at hc
      refine ⟨iff_of_false (by simp) ?_, fun h => absurd rfl h, fun _ => rfl⟩
      rintro (h | h)
      · exact hc.1 h
      · exact h hc.2.symm
  refine ⟨hmain.1, hmain.2.1, hmain.2.2, ?_⟩
  intro a v hv hget hlast
  unfold pyGet at hget
  cases hk : pyIndex j.axis_states.length (axisSlot j.num_axes a) with
  | none => rw [hk] at hget; simp at hget
  | some k =>
    rw [hk] at hget
    simp only [Option.map_some', Option.some.injEq] at hget
    have hklt : k < j.axis_states.length := pyIndex_some_lt hk
    have hset : pySet j.axis_states (axisSlot j.num_axes a) v = some j.axis_states := by
      unfold pySet
      rw [hk, ← hget]
      simp only [Option.map_some', Option.some.injEq]
      exact list_set_getD _ _ _ hklt
    unfold Joystick.update_axis
    simp only [updateAxisLoop, hv, hset, Bool.false_eq_true, if_false]
    have hj : { j with axis_states := j.axis_states } = j := rfl
    rw [hj, (update_cases j false hok).2 (by simp [hlast])]

/-- Witness for C3: with the repository's 6-axis 13-button configuration,
after the construction-time reset the state is serializable and in sync, and
re-writing axis 0 with its current (transmitted) value 128 with defer false
sends nothing. -/
theorem C3_report_cycle_witness :
    ((mkJoystick 6 13 20).reset_all).st.serializeOk = true ∧
    ((((mkJoystick 6 13 20).reset_all).st.update_axis [(0, 128)] false false).sent = []) := by
  refine ⟨by decide, ?_⟩
  exact (C3_report_cycle ((mkJoystick 6 13 20).reset_all).st false (by decide)).2.2.2 0 128
    (by decide) (by decide) (by decide)

lemma serializeOk_of (j : Joystick)
    (hl : j.reportData.length = j.num_axes + nButtonBytes j.num_buttons)
    (hr : j.num_axes + nButtonBytes j.num_buttons ≤ j.report.length)
    (hv : ∀ v ∈ j.reportData, 0 ≤ v ∧ v ≤ 255) : j.serializeOk = true := by
  unfold Joystick.serializeOk
  rw [Bool.and_eq_true, Bool.and_eq_true]
  refine ⟨⟨decide_eq_true hl, decide_eq_true hr⟩, ?_⟩
  rw [List.all_eq_true]
  intro v hv'
  rw [Bool.and_eq_true]
  exact ⟨decide_eq_true (hv v hv').1, decide_eq_true (hv v hv').2⟩

lemma reset_all_spec (j : Joystick)
    (h1 : j.axis_states.length = j.num_axes)
    (h2 : j.button_states.length = nButtonBytes j.num_buttons)
    (h3 : j.num_axes + nButtonBytes j.num_buttons ≤ j.report_size)
    (h4 : j.report.length = j.report_size)
    (h5 : j.report.drop (j.num_axes + nButtonBytes j.num_buttons) =
      List.replicate (j.report_size - (j.num_axes + nButtonBytes j.num_buttons)) 0) :
    j.reset_all = ⟨{ j with
        axis_states := List.replicate j.num_axes Axis.IDLE,
        button_states := List.replicate (nButtonBytes j.num_buttons) 0,
        report := idleReport j,
        last_report := idleReport j }, none, [idleReport j]⟩ := by
  have hdrop0 : j.axis_states.drop j.num_axes = [] := by
    rw [show j.num_axes = j.axis_states.length from h1.symm, List.drop_length]
  unfold Joystick.reset_all
  rw [if_pos (le_of_eq h1.symm), hdrop0, List.append_nil, h2]
  set j1 : Joystick := { j with
    axis_states := List.replicate j.num_axes Axis.IDLE,
    button_states := List.replicate (nButtonBytes j.num_buttons) 0 } with hj1
  have hdata : j1.reportData =
      List.replicate j.num_axes Axis.IDLE ++ List.replicate (nButtonBytes j.num_buttons) (0 : ℤ) := by
    rw [hj1]
    unfold Joystick.reportData
    simp only [List.map_replicate]
    rfl
  have hok1 : j1.serializeOk = true := by
    apply serializeOk_of
    · rw [hdata]
      simp only [List.length_append, List.length_replicate]
    · show j.num_axes + nButtonBytes j.num_buttons ≤ j.report.length
      omega
    · rw [hdata]
      intro v hv
      rcases List.mem_append.mp hv with hm | hm <;>
        rcases List.eq_of_mem_replicate hm with rfl <;> simp [Axis.IDLE]
  have hser : j1.serialized = idleReport j := by
    unfold Joystick.serialized
    rw [hdata]
    unfold idleReport
    simp only [List.map_append, List.map_replicate, List.length_append, List.length_replicate]
    show List.replicate j.num_axes (Int.toNat Axis.IDLE) ++
        List.replicate (nButtonBytes j.num_buttons) (Int.toNat 0) ++
        j.report.drop (j.num_axes + nButtonBytes j.num_buttons) = _
    rw [h5, List.append_assoc]
    rw [show Int.toNat Axis.IDLE = 128 from rfl, show Int.toNat 0 = 0 from rfl]
    rw [← List.replicate_add]
    have hn : nButtonBytes j.num_buttons +
        (j.report_size - (j.num_axes + nButtonBytes j.num_buttons)) =
        j.report_size - j.num_axes := by omega
    rw [hn]
  rw [(update_cases j1 true hok1).1 (Or.inl rfl), hser]

/-- C6: reset_all sets every axis value to 128 (Axis.IDLE) and every button
byte to 0 and then transmits unconditionally: calling it twice in a row from
any reachable state produces two transmissions, both carrying the idle
report (128 per axis byte, 0 per button byte, zero padding) even though the
second one is identical to the last sent report. -/
theorem C6_reset_all (j : Joystick)
    (h1 : j.axis_states.length = j.num_axes)
    (h2 : j.button_states.length = nButtonBytes j.num_buttons)
    (h3 : j.num_axes + nButtonBytes j.num_buttons ≤ j.report_size)
    (h4 : j.report.length = j.report_size)
    (h5 : j.report.drop (j.num_axes + nButtonBytes j.num_buttons) =
      List.replicate (j.report_size - (j.num_axes + nButtonBytes j.num_buttons)) 0) :
    (j.reset_all).sent = [idleReport j] ∧
    (j.reset_all).st.axis_states = List.replicate j.num_axes Axis.IDLE ∧
    (j.reset_all).st.button_states = List.replicate (nButtonBytes j.num_buttons) 0 ∧
    (j.reset_all).st.last_report = idleReport j ∧
    ((j.reset_all).st.reset_all).sent = [idleReport j] := by
  have hs := reset_all_spec j h1 h2 h3 h4 h5
  rw [hs]
  refine ⟨rfl, rfl, rfl, rfl, ?_⟩
  have hlenidle : (idleReport j).length = j.report_size := by
    unfold idleReport
    simp only [List.length_append, List.length_replicate]
    omega
  have hdropidle : (idleReport j).drop (j.num_axes + nButtonBytes j.num_buttons) =
      List.replicate (j.report_size - (j.num_axes + nButtonBytes j.num_buttons)) 0 := by
    unfold idleReport
    have hgen : ∀ A B : List ℕ, A.length = j.num_axes →
        List.drop (j.num_axes + nButtonBytes j.num_buttons) (A ++ B) =
          List.drop (nButtonBytes j.num_buttons) B := by
      intro A B hA
      rw [show j.num_axes + nButtonBytes j.num_buttons =
          A.length + nButtonBytes j.num_buttons by rw [hA], List.drop_append]
    rw [hgen _ _ (by simp), List.drop_replicate]
    congr 1
    omega
  have hs2 := reset_all_spec
    { j with
      axis_states := List.replicate j.num_axes Axis.IDLE,
      button_states := List.replicate (nButtonBytes j.num_buttons) 0,
      report := idleReport j,
      last_report := idleReport j }
    (by simp) (by simp) h3 hlenidle hdropidle
  rw [hs2]
  rfl

/-- Witness for C6: with the repository's 6-axis 13-button 20-byte
configuration, reset_all transmits the idle report and a second reset_all
transmits it again. -/
theorem C6_reset_all_witness :
    ((mkJoystick 6 13 20).reset_all).sent = [idleReport (mkJoystick 6 13 20)] ∧
    (((mkJoystick 6 13 20).reset_all).st.reset_all).sent =
      [idleReport (mkJoystick 6 13 20)] := by
  have h := C6_reset_all (mkJoystick 6 13 20) (by decide) (by decide) (by decide) (by decide)
    (by decide)
  exact ⟨h.1, h.2.2.2.2⟩

/-- C4 (amended): on the first line containing the marker token, the source
keeps the whitespace-separated tokens that consist entirely of digits (not
every maximal digit run), parses them as integers in order, requires at
least 4 of them, and assigns axis_count from the 1st, button_count from the
2nd and report_length from the 4th; the spec's example line
"... JoystickXL 6 13 0 20 ..." yields (6, 13, 20). -/
theorem C4_config_tokens (pre : List (List Char)) (line : List Char) (post : List (List Char))
    (hpre : ∀ l ∈ pre, containsSeq marker l = false)
    (hline : containsSeq marker line = true)
    (hlen : 4 ≤ (lineConfig line).length)
    (hrs : (lineConfig line).getD 3 0 ≠ 0) :
    loadConfig (pre ++ line :: post) =
      some ((lineConfig line).getD 0 0, (lineConfig line).getD 1 0,
        (lineConfig line).getD 3 0) ∧
    loadConfig [("... JoystickXL 6 13 0 20 ...".toList)] = some (6, 13, 20) := by
  constructor
  · have hfind : (pre ++ line :: post).find? (fun l => containsSeq marker l) = some line := by
      induction pre with
      | nil => simp [List.find?, hline]
      | cons x xs ih =>
        rw [List.cons_append, List.find?_cons_of_neg _ (by simp [hpre x (by simp)])]
        exact ih (fun l hl => hpre l (by simp [hl]))
    unfold loadConfig
    rw [hfind]
    show (if (lineConfig line).length < 4 then none
      else if (lineConfig line).getD 3 0 = 0 then none
      else some ((lineConfig line).getD 0 0, (lineConfig line).getD 1 0,
        (lineConfig line).getD 3 0)) = _
    rw [if_neg (by omega), if_neg hrs]
  · decide

/-- C4 counterexample: the line "JoystickXL: 6, 13, 0, 20" contains the
marker and has the four maximal digit runs 6, 13, 0, 20, so per the claim
the loader should yield axis_count 6, button_count 13, report_length 20;
the code keeps only the digit-only whitespace token "20", finds fewer than 4
integers, and fails with the configuration error instead. -/
theorem C4_config_counterexample :
    containsSeq marker ("JoystickXL: 6, 13, 0, 20".toList) = true ∧
    specDigitRuns ("JoystickXL: 6, 13, 0, 20".toList) = [6, 13, 0, 20] ∧
    lineConfig ("JoystickXL: 6, 13, 0, 20".toList) = [20] ∧
    loadConfig [("JoystickXL: 6, 13, 0, 20".toList)] = none := by
  refine ⟨by decide, by decide, by decide, by decide⟩

/-- Witness for C4 at the spec's example line, applied with an earlier
marker-free line present. -/
theorem C4_config_tokens_witness :
    loadConfig [("hello world".toList), ("... JoystickXL 6 13 0 20 ...".toList)] =
      some (6, 13, 20) := by
  have h := C4_config_tokens [("hello world".toList)] ("... JoystickXL 6 13 0 20 ...".toList) []
    (by intro l hl; simp at hl; subst hl; decide) (by decide) (by decide) (by decide)
  have h1 := h.1
  simp only [List.cons_append, List.nil_append] at h1
  rw [h1]
  decide

/-- C5 counterexample: with configuration line "JoystickXL 0 0 0 5"
(axis_count 0, button_count 0, report_length 5) construction succeeds with
no InitializationError; and when the initial transmission raises OSError the
call fails with NameError (time is not imported) instead of retrying once
after a delay. -/
theorem C5_init_counterexample :
    initJoystick [("JoystickXL 0 0 0 5".toList)] true false = .ok (mkJoystick 0 0 5) ∧
    initJoystick [("JoystickXL 6 13 0 20".toList)] true true = .error .nameError := by
  refine ⟨by decide, by decide⟩

/-- C5 (amended): construction performs no zero-inputs check (a
configuration with axis_count 0 and button_count 0 but nonzero report length
constructs successfully); when the construction-time transmission raises
OSError, the except handler's reference to the unimported time module raises
NameError, so the single intended retry never runs; and when no HID device
is found a ValueError propagates immediately with no retry. -/
theorem C5_init_behavior :
    initJoystick [("JoystickXL 0 0 0 5".toList)] true false = .ok (mkJoystick 0 0 5) ∧
    (∀ (lines : List (List Char)) (na nb rs : ℕ), loadConfig lines = some (na, nb, rs) →
      ((mkJoystick na nb rs).reset_all).err = none →
      initJoystick lines true true = .error .nameError) ∧
    (∀ (lines : List (List Char)) (na nb rs : ℕ), loadConfig lines = some (na, nb, rs) →
      ∀ fails : Bool, initJoystick lines false fails = .error .deviceNotFound) := by
  refine ⟨by decide, ?_, ?_⟩
  · intro lines na nb rs hcfg hreset
    have hred : initJoystick lines true true = initFromConfig na nb rs true true := by
      unfold initJoystick
      rw [hcfg]
    rw [hred]
    unfold initFromConfig
    rw [if_pos rfl]
    rcases hr : (mkJoystick na nb rs).reset_all with ⟨j', oe, sent⟩
    rw [hr] at hreset
    cases oe with
    | some e => exact absurd hreset (by simp)
    | none => rfl
  · intro lines na nb rs hcfg fails
    have hred : initJoystick lines false fails = initFromConfig na nb rs false fails := by
      unfold initJoystick
      rw [hcfg]
    rw [hred]
    rfl

/-- Witness for C5's amended behavior: the NameError branch at the
repository's own configuration line, and the no-device failure. -/
theorem C5_init_behavior_witness :
    initJoystick [("JoystickXL 6 13 0 20".toList)] true true = .error .nameError ∧
    initJoystick [("JoystickXL 6 13 0 20".toList)] false false = .error .deviceNotFound := by
  constructor
  · exact C5_init_behavior.2.1 [("JoystickXL 6 13 0 20".toList)] 6 13 20 (by decide) (by decide)
  · exact C5_init_behavior.2.2 [("JoystickXL 6 13 0 20".toList)] 6 13 20 (by decide) false

/-- C10 counterexample: validation does not require a non-negative index, so
"passing validation" does not imply 0 <= index < axis_count: with 6 axes the
pair (-10, 100) passes validation, yet the write is out of bounds and the
call raises IndexError. -/
theorem C10_slot_counterexample :
    validate_axis_value 6 (-10) 100 = none ∧
    ((mkJoystick 6 13 20).update_axis [(-10, 100)] false false).err =
      some .indexError := by
  refine ⟨by decide, by decide⟩

/-- C10 (amended): for a pair whose index is non-negative and validated
(0 <= index < axis_count, 0 <= value <= 255) the slot written by update_axis
lies in [0, axis_count), so the write into axis_states is in bounds; when
axis_count > 7 the remap sends indices 6..axis_count-1 into 6..axis_count-1
and is an involution, hence a bijection of that range.  Validation alone
does not guarantee this: a negative index can pass validation (see the
counterexample). -/
theorem C10_slot_safety (n : ℕ) (a v : ℤ) (h0 : 0 ≤ a) (hn : a < (n : ℤ)) :
    (0 ≤ axisSlot n a ∧ axisSlot n a < (n : ℤ)) ∧
    (7 < n → 6 ≤ a → 6 ≤ axisSlot n a ∧ axisSlot n a < (n : ℤ) ∧
      axisSlot n (axisSlot n a) = a) ∧
    (∀ j : Joystick, j.num_axes = n → j.axis_states.length = n →
      pySet j.axis_states (axisSlot n a) v =
        some (j.axis_states.set (axisSlot n a).toNat v)) := by
  have hb := axisSlot_bounds h0 hn
  refine ⟨hb, ?_, ?_⟩
  · intro h7 h6
    have h5 : (5 : ℤ) < a := by omega
    have hslot : axisSlot n a = (n : ℤ) - a + 5 := by
      unfold axisSlot
      rw [if_pos ⟨h7, h5⟩]
    refine ⟨by omega, by omega, ?_⟩
    rw [hslot]
    unfold axisSlot
    rw [if_pos ⟨h7, by omega⟩]
    omega
  · intro j hna hlen
    unfold pySet
    rw [hlen, pyIndex_of_nonneg hb.1 hb.2]
    rfl

/-- Witness for C10's amended claim at the repository-relevant shape: 13
axes, index 12 maps to slot 6, the remap is involutive there, and the write
is in bounds. -/
theorem C10_slot_safety_witness :
    axisSlot 13 12 = 6 ∧
    axisSlot 13 (axisSlot 13 12) = 12 ∧
    pySet (mkJoystick 13 13 20).axis_states (axisSlot 13 12) 200 =
      some ((mkJoystick 13 13 20).axis_states.set 6 200) := by
  have h := C10_slot_safety 13 12 200 (by decide) (by decide)
  refine ⟨by decide, h.2.1 (by decide) (by decide) |>.2.2, ?_⟩
  have h3 := h.2.2 (mkJoystick 13 13 20) (by decide) (by decide)
  rw [h3]
  decide
